import Mathlib

/-!
Verification development for `plant_label_generator.py` (plant-labeler).

The repository is a batch renderer: it validates rows of plant-care data
(`validate_csv_data`), derives renderer parameters per row
(`build_openscad_command` with helpers `_is_valid_boolean`,
`convert_boolean_to_openscad`, `sanitize_filename`, `extract_nickname`),
and invokes an external renderer per record (`render_stl`,
`generate_all_labels`).

Modelling conventions:
* A spreadsheet cell, as handed to the Python code by the pandas reader,
  is a `Cell`: `na` (absent/empty cell, pandas `NaN`), a textual value
  `str`, an integer-typed value `int` (an `int64` column), or a
  float-typed value `num` (a `float64` column), carrying the exact
  rational value of the decimal literal that was written.
* Python `str.strip` / `str.upper` / `int(...)` / `float(...)` are
  modelled on the ASCII fragment they are used on here: `upper` maps
  ASCII letters, numeric literals are optionally-signed decimal strings
  (exotic Python forms such as exponents, `inf`, or `_` digit separators
  are outside the modelled input alphabet).
* Python exceptions are modelled with `Except PyError`; fatal dataset
  validation is `Except String` carrying the exception message.
-/

deriving instance DecidableEq for Except

namespace PlantLabel

/-- Python `str.strip()` on a string (drop leading and trailing whitespace). -/
def pyStrip (s : String) : String :=
  String.mk (((s.toList.dropWhile Char.isWhitespace).reverse.dropWhile Char.isWhitespace).reverse)

/-- Python `str.strip(chars)` for a single character, as in `filename.strip('_')`. -/
def pyStripChar (c : Char) (s : String) : String :=
  String.mk (((s.toList.dropWhile (fun d => d = c)).reverse.dropWhile (fun d => d = c)).reverse)

/-- Python `str.upper()` (ASCII). -/
def pyUpper (s : String) : String :=
  String.mk (s.toList.map Char.toUpper)

/-- Numeric value of a decimal digit character. -/
def digitVal (c : Char) : Nat := c.toNat - 48

/-- The natural number denoted by a list of decimal digits. -/
def natOfDigits (l : List Char) : Nat :=
  l.foldl (fun n c => 10 * n + digitVal c) 0

/-- Parse a non-empty all-digit string; `none` otherwise. -/
def digitsToNat (l : List Char) : Option Nat :=
  if l ≠ [] ∧ l.all Char.isDigit then some (natOfDigits l) else none

/-- Python `int(s)` on a string: strip whitespace, optional sign, decimal
digits; anything else raises `ValueError` (`none`). -/
def pyStrToInt (s : String) : Option Int :=
  match (pyStrip s).toList with
  | [] => none
  | c :: rest =>
    if c = '-' then (digitsToNat rest).map (fun n => -(n : Int))
    else if c = '+' then (digitsToNat rest).map (fun n => (n : Int))
    else (digitsToNat (c :: rest)).map (fun n => (n : Int))

/-- Unsigned decimal float body: `digits`, `digits.digits`, `digits.` or
`.digits` (at least one digit overall). -/
def parseUnsignedFloat (l : List Char) : Option ℚ :=
  let ip := l.takeWhile Char.isDigit
  let rest := l.dropWhile Char.isDigit
  match rest with
  | [] => if ip = [] then none else some ((natOfDigits ip : ℚ))
  | c :: fp =>
    if c = '.' ∧ fp.all Char.isDigit ∧ (ip ≠ [] ∨ fp ≠ []) then
      -- the value ip.fp, i.e. (ip * 10^|fp| + fp) / 10^|fp|, built with
      -- `mkRat` so that it evaluates inside the kernel
      some (mkRat ((natOfDigits ip * 10 ^ fp.length + natOfDigits fp : Nat) : Int) (10 ^ fp.length))
    else none

/-- Python `float(s)` on a string: strip whitespace, optional sign,
decimal literal; `ValueError` is `none`. -/
def pyStrToFloat (s : String) : Option ℚ :=
  match (pyStrip s).toList with
  | [] => none
  | c :: rest =>
    if c = '-' then (parseUnsignedFloat rest).map (fun q => -q)
    else if c = '+' then parseUnsignedFloat rest
    else parseUnsignedFloat (c :: rest)

/-- Python `int(x)` on a float: truncation toward zero. -/
def pyTrunc (q : ℚ) : Int :=
  if 0 ≤ q then q.floor else q.ceil

/-- Decimal digits of the fractional part `num/den` (stops at the first
exact digit or after `fuel` digits). -/
def fracDigitChars : Nat → Nat → Nat → List Char
  | 0, _, _ => []
  | _ + 1, 0, _ => []
  | fuel + 1, num, den =>
    Char.ofNat (48 + num * 10 / den) :: fracDigitChars fuel (num * 10 % den) den

/-- Python `str(x)` of a float cell: the exact terminating decimal
expansion of the written literal (e.g. `80.0`, `4.9`). -/
def pyFloatRepr (q : ℚ) : String :=
  let sign := if q < 0 then "-" else ""
  let n := q.num.natAbs
  let d := q.den
  let fs := fracDigitChars 40 (n % d) d
  sign ++ toString (n / d) ++ "." ++ (if fs = [] then "0" else String.mk fs)

/-- One spreadsheet cell as produced by the pandas reader. -/
inductive Cell where
  /-- absent or empty cell (`NaN`) -/
  | na : Cell
  /-- textual cell -/
  | str : String → Cell
  /-- integer-typed cell (`int64` column) -/
  | int : Int → Cell
  /-- float-typed cell (`float64` column), as the exact written decimal -/
  | num : ℚ → Cell
deriving DecidableEq

/-- Python `str(value)` of a cell. -/
def cellStr : Cell → String
  | Cell.na => "nan"
  | Cell.str s => s
  | Cell.int n => toString n
  | Cell.num q => pyFloatRepr q

/-- Python `int(value)` of a cell; `none` models the raised
`ValueError`/`TypeError` (including `int(NaN)`). -/
def intOfCell : Cell → Option Int
  | Cell.na => none
  | Cell.str s => pyStrToInt s
  | Cell.int n => some n
  | Cell.num q => some (pyTrunc q)

/-- Python `float(value)` of a cell; `none` models a raised
`ValueError`/`TypeError`. (`float(NaN)` does not raise in Python, but
every call site in the source checks `pd.isna`/`pd.notna` first, so the
`na` branch is never consulted.) -/
def floatOfCell : Cell → Option ℚ
  | Cell.na => none
  | Cell.str s => pyStrToFloat s
  | Cell.int n => some (n : ℚ)
  | Cell.num q => some q

/-- `PlantLabelGenerator._is_valid_boolean`: `NaN` is accepted (it will
be converted to `False`); otherwise `str(value).strip().upper()` must be
one of the six accepted literals. -/
def _is_valid_boolean (c : Cell) : Bool :=
  if c = Cell.na then true
  else decide (pyUpper (pyStrip (cellStr c)) ∈ (["TRUE", "FALSE", "1", "0", "YES", "NO"] : List String))

/-- `PlantLabelGenerator.convert_boolean_to_openscad`: the accepted
literals map to `true`/`false`; any other value falls back to
`float(value)` with nonzero meaning `true`, and `false` if that raises. -/
def convert_boolean_to_openscad (c : Cell) : String :=
  if c = Cell.na then "false"
  else
    let v := pyUpper (pyStrip (cellStr c))
    if v ∈ (["TRUE", "1", "YES"] : List String) then "true"
    else if v ∈ (["FALSE", "0", "NO"] : List String) then "false"
    else
      match floatOfCell c with
      | some q => if q ≠ 0 then "true" else "false"
      | none => "false"

/-- Python regex `\w` on the ASCII fragment: letters, digits, underscore. -/
def isWordChar (c : Char) : Bool :=
  c.isAlphanum || c = '_'

/-- A character matched by `[-\s]`: hyphen or whitespace. -/
def isRunChar (c : Char) : Bool :=
  c = '-' || c.isWhitespace

/-- The substitution `re.sub(r'[-\s]+', '_', ·)`: every maximal run of
hyphens/whitespace becomes a single underscore (emitted at the end of
the run, which yields the same string). -/
def collapseRuns : List Char → List Char
  | [] => []
  | [c] => if isRunChar c then ['_'] else [c]
  | c :: d :: rest =>
    if isRunChar c then
      if isRunChar d then collapseRuns (d :: rest)
      else '_' :: collapseRuns (d :: rest)
    else c :: collapseRuns (d :: rest)

/-- `PlantLabelGenerator.sanitize_filename`:
`re.sub(r'[^\w\s-]', '', name)`, then `re.sub(r'[-\s]+', '_', ·)`,
then `.strip('_')`. -/
def sanitize_filename (name : String) : String :=
  let step1 := name.toList.filter (fun c => isWordChar c || c.isWhitespace || c = '-')
  let step2 := collapseRuns step1
  pyStripChar '_' (String.mk step2)

/-- One step of the specification-side run collapsing: a right fold whose
Boolean component records whether the suffix begins with a hyphen or a
whitespace character. -/
def collapseSpecStep (c : Char) (p : Bool × List Char) : Bool × List Char :=
  if isRunChar c then (true, if p.1 then p.2 else '_' :: p.2)
  else (false, c :: p.2)

/-- Specification-side run collapsing, written independently of
`collapseRuns`: fold from the right, inserting one underscore per
maximal run. -/
def collapseSpec (l : List Char) : List Char :=
  (l.foldr collapseSpecStep (false, [])).2

/-- The slug transformation exactly as the claim states it: strip every
character that is not a word character, whitespace or hyphen; collapse
every hyphen/whitespace run to a single underscore; trim leading and
trailing underscores. -/
def slugSpec (name : String) : String :=
  pyStripChar '_' (String.mk (collapseSpec
    (name.toList.filter (fun c => isWordChar c || c.isWhitespace || c = '-'))))

/-- The single-quote character. -/
def squote : Char := Char.ofNat 39

/-- The double-quote character. -/
def dquote : Char := Char.ofNat 34

/-- `re.search(q([^q]*)q, s)` for a quote character `q`: the content of
the first quoted substring, or `none`. -/
def searchQuoted (q : Char) : List Char → Option (List Char)
  | [] => none
  | c :: rest =>
    if c = q then
      if q ∈ rest then some (rest.takeWhile (fun d => d ≠ q)) else none
    else searchQuoted q rest

/-- `re.sub(q[^q]*q, "", ·)` with explicit fuel (one unit per input
character suffices): every non-overlapping quoted substring, quotes
included, is removed; an unmatched quote is kept. -/
def removeQuotedF (q : Char) : Nat → List Char → List Char
  | _, [] => []
  | 0, l => l
  | fuel + 1, c :: rest =>
    if c = q ∧ q ∈ rest then
      removeQuotedF q fuel ((rest.dropWhile (fun d => d ≠ q)).tail)
    else c :: removeQuotedF q fuel rest

/-- `re.sub(q[^q]*q, "", ·)` on a character list. -/
def removeQuoted (q : Char) (l : List Char) : List Char :=
  removeQuotedF q l.length l

/-- `PlantLabelGenerator.extract_nickname`: look for a single-quoted
substring first, then a double-quoted one; the first quoted text becomes
the nickname while all substrings of that quote style are removed from
the common name (then stripped); otherwise the name is unchanged and the
nickname empty. Returns `(base_name, nickname)`. -/
def extract_nickname (common_name : String) : String × String :=
  match searchQuoted squote common_name.toList with
  | some nick =>
    (pyStrip (String.mk (removeQuoted squote common_name.toList)), String.mk nick)
  | none =>
    match searchQuoted dquote common_name.toList with
    | some nick =>
      (pyStrip (String.mk (removeQuoted dquote common_name.toList)), String.mk nick)
    | none => (common_name, "")

/-- Which optional columns the input dataset has.  The seven required
columns are checked up front by `validate_csv_data` (a missing one is a
fatal `DataValidationError` before any row is visited), so rows are only
modelled for schemas that pass that check. -/
structure Schema where
  hasNickname : Bool
  hasWidth : Bool
  hasHeight : Bool
deriving DecidableEq

/-- One raw row (a pandas `Series`).  Fields for optional columns are
only consulted when the corresponding `Schema` flag is set; indexing an
absent column raises `KeyError` in Python. -/
structure Row where
  commonName : Cell
  scientificName : Cell
  water : Cell
  light : Cell
  dry : Cell
  spike : Cell
  holes : Cell
  nickname : Cell
  width : Cell
  height : Cell
deriving DecidableEq

/-- The duplicate-detection identity pair `(Common Name, Scientific Name)`,
compared on the raw cell values as `pandas.duplicated` does. -/
def keyOf (r : Row) : Cell × Cell :=
  (r.commonName, r.scientificName)

/-- A validation warning.  Dimension warnings keep their exact message
text; the two duplicate warnings are kept structured because Python
renders `set(duplicate_plants)` with unspecified iteration order. -/
inductive Warning where
  /-- `f"Row {i+1}: {field} is very large ({v}mm)"` -/
  | msg (s : String)
  /-- `f"Found duplicate entries: {set(duplicate_plants)}"` -/
  | dupFound (names : Finset Cell)
  /-- `f"Removed {duplicates.sum() - len(set(duplicate_plants))} duplicate rows"` -/
  | dupRemoved (count : Int)
deriving DecidableEq

/-- `f"Row {index+1}: "` message prefix. -/
def rowIndexTag (i : Nat) : String :=
  "Row " ++ toString (i + 1) ++ ": "

/-- Common Name / Scientific Name check: empty if `NaN` or if
`str(value).strip()` is falsy. -/
def nameErrors (i : Nat) (field : String) (c : Cell) : List String :=
  if c = Cell.na ∨ pyStrip (cellStr c) = "" then
    [rowIndexTag i ++ field ++ " is empty"]
  else []

/-- Water / Light check: `int(value)` must succeed and land in `[1,4]`.
`field` is `"Water"` or `"Light"` (the source has the same code twice). -/
def levelErrors (i : Nat) (field : String) (c : Cell) : List String :=
  match intOfCell c with
  | some v =>
    if ¬ (1 ≤ v ∧ v ≤ 4) then
      [rowIndexTag i ++ field ++ " level must be 1-4, got " ++ toString v]
    else []
  | none =>
    [rowIndexTag i ++ field ++ " level must be numeric (1-4), got '" ++ cellStr c ++ "'"]

/-- Boolean-field check via `_is_valid_boolean`. -/
def boolErrors (i : Nat) (field : String) (c : Cell) : List String :=
  if ¬ _is_valid_boolean c then
    [rowIndexTag i ++ field ++ " must be TRUE/FALSE, got '" ++ cellStr c ++ "'"]
  else []

/-- Width / Height check, only when the column exists and the cell is
present: `float(value)` must succeed and be positive. -/
def dimErrors (i : Nat) (field : String) (hasCol : Bool) (c : Cell) : List String :=
  if hasCol ∧ c ≠ Cell.na then
    match floatOfCell c with
    | some v =>
      if v ≤ 0 then [rowIndexTag i ++ field ++ " must be positive, got " ++ pyFloatRepr v]
      else []
    | none =>
      [rowIndexTag i ++ field ++ " must be numeric, got '" ++ cellStr c ++ "'"]
  else []

/-- The `elif dim_val > 200` warning of the same check. -/
def dimWarnings (i : Nat) (field : String) (hasCol : Bool) (c : Cell) : List Warning :=
  if hasCol ∧ c ≠ Cell.na then
    match floatOfCell c with
    | some v =>
      if ¬ v ≤ 0 ∧ 200 < v then
        [Warning.msg (rowIndexTag i ++ field ++ " is very large (" ++ pyFloatRepr v ++ "mm)")]
      else []
    | none => []
  else []

/-- All `row_errors` of one row, in source order. -/
def rowErrors (sch : Schema) (i : Nat) (r : Row) : List String :=
  nameErrors i "Common Name" r.commonName
    ++ nameErrors i "Scientific Name" r.scientificName
    ++ levelErrors i "Water" r.water
    ++ levelErrors i "Light" r.light
    ++ boolErrors i "Dry between Waterings" r.dry
    ++ boolErrors i "Spike" r.spike
    ++ boolErrors i "Holes" r.holes
    ++ dimErrors i "Width" sch.hasWidth r.width
    ++ dimErrors i "Height" sch.hasHeight r.height

/-- The warnings one row contributes during the loop. -/
def rowWarnings (sch : Schema) (i : Nat) (r : Row) : List Warning :=
  dimWarnings i "Width" sch.hasWidth r.width
    ++ dimWarnings i "Height" sch.hasHeight r.height

/-- `errors.extend(row_errors)` over the whole loop, rows numbered from `i`. -/
def rowsErrors (sch : Schema) : Nat → List Row → List String
  | _, [] => []
  | i, r :: rest => rowErrors sch i r ++ rowsErrors sch (i + 1) rest

/-- `warnings.append(...)` over the whole loop. -/
def rowsWarnings (sch : Schema) : Nat → List Row → List Warning
  | _, [] => []
  | i, r :: rest => rowWarnings sch i r ++ rowsWarnings sch (i + 1) rest

/-- `valid_rows`: the rows whose `row_errors` list stayed empty. -/
def validRows (sch : Schema) : Nat → List Row → List Row
  | _, [] => []
  | i, r :: rest =>
    if rowErrors sch i r = [] then r :: validRows sch (i + 1) rest
    else validRows sch (i + 1) rest

/-- `drop_duplicates(subset=key, keep='first')`: keep each row whose key
has not been seen yet. -/
def dedupFirstBy (key : Row → Cell × Cell) : List Row → List (Cell × Cell) → List Row
  | [], _ => []
  | r :: rest, seen =>
    if key r ∈ seen then dedupFirstBy key rest seen
    else r :: dedupFirstBy key rest (key r :: seen)

/-- `clean_df[clean_df.duplicated(subset, keep=False)]`: the rows whose
identity pair occurs at least twice. -/
def dupRowsOf (rows : List Row) : List Row :=
  rows.filter (fun t => 2 ≤ (rows.map keyOf).countP (fun k => k = keyOf t))

/-- `set(duplicate_plants)`: the set of Common Name cells of those rows. -/
def dupNamesOf (rows : List Row) : Finset Cell :=
  ((dupRowsOf rows).map (fun t => t.commonName)).toFinset

/-- `duplicates.sum() - len(set(duplicate_plants))`: the number the
source reports as "Removed {n} duplicate rows". -/
def dupCountOf (rows : List Row) : Int :=
  ((dupRowsOf rows).length : Int) - ((dupNamesOf rows).card : Int)

/-- `PlantLabelGenerator.validate_csv_data` on a dataset that has all
required columns: collect row errors and warnings in order; if any row
erred, raise `DataValidationError` with the joined message; otherwise
resolve duplicates of `(Common Name, Scientific Name)` keeping first
occurrences and append the two duplicate warnings. -/
def validate_csv_data (sch : Schema) (rows : List Row) :
    Except String (List Row × List Warning) :=
  let errors := rowsErrors sch 0 rows
  let warns := rowsWarnings sch 0 rows
  if errors ≠ [] then
    Except.error ("Data validation failed:\n" ++ String.intercalate "\n" errors)
  else
    let valid := validRows sch 0 rows
    if valid ≠ [] then
      if dupRowsOf valid ≠ [] then
        Except.ok (dedupFirstBy keyOf valid [],
          warns ++ [Warning.dupFound (dupNamesOf valid),
            Warning.dupRemoved (dupCountOf valid)])
      else
        Except.ok (valid, warns)
    else
      Except.ok ([], warns)

/-- Claim-side trigger for C3/C10: the Water or Light cell does not
parse as an integer, or parses outside `[1,4]`. -/
def cellOutside14 (c : Cell) : Prop :=
  match intOfCell c with
  | some v => v < 1 ∨ 4 < v
  | none => True

instance (c : Cell) : Decidable (cellOutside14 c) := by
  unfold cellOutside14
  exact match intOfCell c with
  | some _ => inferInstanceAs (Decidable (_ ∨ _))
  | none => inferInstanceAs (Decidable True)

/-- A value of the `openscad_params` dict: Python bool, str, int or float. -/
inductive PVal where
  | pbool (b : Bool)
  | pstr (s : String)
  | pint (n : Int)
  | pnum (q : ℚ)
deriving DecidableEq

/-- A Python exception relevant to the parameter builder. -/
inductive PyError where
  /-- indexing a pandas `Series` (or a dict) with an absent key -/
  | keyError (key : String)
  /-- `.strip()` on a non-string cell value -/
  | attributeError
  /-- a string operation (`re.search`, `re.sub`) on a non-string value -/
  | typeError
  /-- `int(...)`/`float(...)` on an unparseable value -/
  | valueError
deriving DecidableEq

/-- `self.openscad_params` as initialised in `PlantLabelGenerator.__init__`,
in insertion order. -/
def defaultParams : List (String × PVal) :=
  [("label_width", PVal.pint 80),
   ("label_height", PVal.pint 30),
   ("label_thickness", PVal.pint 3),
   ("text_height", PVal.pnum (mkRat 15 10)),
   ("text_size_multiplier", PVal.pnum (mkRat 10 10)),
   ("symbol_size_multiplier", PVal.pnum (mkRat 10 10)),
   ("show_plant_name", PVal.pbool true),
   ("show_scientific_name", PVal.pbool true),
   ("show_nickname", PVal.pbool true),
   ("show_water_symbols", PVal.pbool true),
   ("show_light_symbols", PVal.pbool true),
   ("show_frame", PVal.pbool true),
   ("corner_radius", PVal.pint 3),
   ("frame_width", PVal.pnum (mkRat 15 10)),
   ("frame_height", PVal.pnum (mkRat 8 10)),
   ("spike_length", PVal.pint 40),
   ("spike_width", PVal.pint 6),
   ("spike_taper", PVal.pnum (mkRat 7 10)),
   ("spike_position", PVal.pint 0),
   ("spike_base_radius", PVal.pnum (mkRat 15 10)),
   ("hole_diameter", PVal.pint 3),
   ("hole_margin_x", PVal.pint 4),
   ("hole_margin_y", PVal.pint 4),
   ("font_name", PVal.pstr "Liberation Sans")]

/-- Dict lookup `params[k]`. -/
def lookupParam (ps : List (String × PVal)) (k : String) : Option PVal :=
  (ps.find? (fun p => p.1 = k)).map (fun p => p.2)

/-- `dict.update` for one existing key (as `main()` does with the parsed
command-line arguments); insertion order is preserved. -/
def setParam (ps : List (String × PVal)) (k : String) (v : PVal) : List (String × PVal) :=
  ps.map (fun p => if p.1 = k then (k, v) else p)

/-- Formatting of one `-D` assignment: bools become `true`/`false`,
strings are quoted, ints and floats use Python `str`. -/
def pvalArg (k : String) (v : PVal) : String :=
  match v with
  | PVal.pbool b => k ++ "=" ++ (if b then "true" else "false")
  | PVal.pstr s => k ++ "=\"" ++ s ++ "\""
  | PVal.pint n => k ++ "=" ++ toString n
  | PVal.pnum q => k ++ "=" ++ pyFloatRepr q

/-- `float(plant_data[colName]) if pd.notna(plant_data[colName]) else
self.openscad_params[paramKey]` — the Width/Height derivation of
`build_openscad_command` (lines 267-268).  Indexing `plant_data[colName]`
raises `KeyError` when the dataset has no such column. -/
def derive_label_dim (params : List (String × PVal)) (colName paramKey : String)
    (hasCol : Bool) (c : Cell) : Except PyError PVal :=
  if hasCol then
    if c ≠ Cell.na then
      match floatOfCell c with
      | some q => Except.ok (PVal.pnum q)
      | none => Except.error PyError.valueError
    else
      match lookupParam params paramKey with
      | some v => Except.ok v
      | none => Except.error (PyError.keyError paramKey)
  else Except.error (PyError.keyError colName)

/-- The `else` branch of the nickname handling: `self.extract_nickname(
plant_data['Common Name'])`.  `re.search` on a non-string raises
`TypeError`. -/
def extractNicknameFromCommon (r : Row) : Except PyError (String × String) :=
  match r.commonName with
  | Cell.str s => Except.ok (extract_nickname s)
  | _ => Except.error PyError.typeError

/-- Nickname handling of `build_openscad_command` (lines 249-253): use the
dedicated column when present, non-NaN and non-blank after `.strip()`
(which raises `AttributeError` on a non-string cell); otherwise extract
from the common name.  Returns `(common_name, nickname)`. -/
def nicknamePair (sch : Schema) (r : Row) : Except PyError (String × String) :=
  if sch.hasNickname ∧ r.nickname ≠ Cell.na then
    match r.nickname with
    | Cell.str s =>
      if pyStrip s ≠ "" then Except.ok (cellStr r.commonName, s)
      else extractNicknameFromCommon r
    | Cell.na => extractNicknameFromCommon r
    | _ => Except.error PyError.attributeError
  else extractNicknameFromCommon r

/-- `int(plant_data['Water']) if pd.notna(plant_data['Water']) else 2`
(same for `Light`). -/
def derive_care_level (c : Cell) : Except PyError Int :=
  if c ≠ Cell.na then
    match intOfCell c with
    | some n => Except.ok n
    | none => Except.error PyError.valueError
  else Except.ok 2

/-- `PlantLabelGenerator.build_openscad_command`: derive every per-record
value, then assemble the `openscad` argument list with one `-D` flag per
parameter, the remaining `openscad_params` entries, and the template
file. -/
def build_openscad_command (params : List (String × PVal)) (templateFile : String)
    (sch : Schema) (r : Row) (outputFile : String) : Except PyError (List String) := do
  let pair ← nicknamePair sch r
  let water ← derive_care_level r.water
  let light ← derive_care_level r.light
  let dry := convert_boolean_to_openscad r.dry
  let spikeEnabled := convert_boolean_to_openscad r.spike
  let hangingHoles := convert_boolean_to_openscad r.holes
  let wv ← derive_label_dim params "Width" "label_width" sch.hasWidth r.width
  let hv ← derive_label_dim params "Height" "label_height" sch.hasHeight r.height
  Except.ok (["openscad", "-o", outputFile]
    ++ ["-D", "plant_name=\"" ++ pair.1 ++ "\""]
    ++ ["-D", "scientific_name=\"" ++ cellStr r.scientificName ++ "\""]
    ++ ["-D", "nickname=\"" ++ pair.2 ++ "\""]
    ++ ["-D", "water_drops=" ++ toString water]
    ++ ["-D", "light_type=" ++ toString light]
    ++ ["-D", "show_dry_soil_symbol=" ++ dry]
    ++ ["-D", "spike_enabled=" ++ spikeEnabled]
    ++ ["-D", "enable_hanging_holes=" ++ hangingHoles]
    ++ ["-D", pvalArg "label_width" wv]
    ++ ["-D", pvalArg "label_height" hv]
    ++ (params.filter (fun p => p.1 ≠ "label_width" ∧ p.1 ≠ "label_height")).flatMap
        (fun p => ["-D", pvalArg p.1 p.2])
    ++ [templateFile])

/-- Outcome of one external `openscad` invocation. -/
inductive RenderOutcome where
  /-- exit code 0 -/
  | success
  /-- non-zero exit code -/
  | nonzeroExit
  /-- `subprocess.TimeoutExpired` -/
  | timeout
  /-- `FileNotFoundError`: renderer missing -/
  | rendererMissing
deriving DecidableEq

/-- `PlantLabelGenerator.render_stl`: build the command and run the
renderer inside `try/except`; every failure — including an exception
raised by `build_openscad_command` — is caught and reported as `False`. -/
def render_stl (params : List (String × PVal)) (templateFile : String) (sch : Schema)
    (outputDir : String) (r : Row) (outputFilename : String)
    (outcome : RenderOutcome) : Bool :=
  match build_openscad_command params templateFile sch r
      (outputDir ++ "/" ++ outputFilename ++ ".stl") with
  | Except.error _ => false
  | Except.ok _ =>
    match outcome with
    | RenderOutcome.success => true
    | _ => false

/-- The per-record loop of `generate_all_labels`, rows numbered from `i`;
`outcome k` is the external renderer's behaviour for the k-th record.
Returns `(successful, failed, attempted records in order)`.
`sanitize_filename` is applied outside any `try`, so a non-string Common
Name cell raises `TypeError` out of the loop. -/
def generateLoop (params : List (String × PVal)) (templateFile : String) (sch : Schema)
    (outputDir : String) (outcome : Nat → RenderOutcome) :
    Nat → List Row → Except PyError (Nat × Nat × List Row)
  | _, [] => Except.ok (0, 0, [])
  | i, r :: rest =>
    match r.commonName with
    | Cell.str s =>
      let ok := render_stl params templateFile sch outputDir r (sanitize_filename s) (outcome i)
      match generateLoop params templateFile sch outputDir outcome (i + 1) rest with
      | Except.ok (succ, fail, att) =>
        Except.ok ((if ok then succ + 1 else succ), (if ok then fail else fail + 1), r :: att)
      | Except.error e => Except.error e
    | _ => Except.error PyError.typeError

/-- `PlantLabelGenerator.generate_all_labels`, restricted to its
per-record phase (dependency checks and CSV loading are upstream):
process the valid records in order, counting successes and failures. -/
def generate_all_labels (params : List (String × PVal)) (templateFile : String)
    (sch : Schema) (outputDir : String) (records : List Row)
    (outcome : Nat → RenderOutcome) : Except PyError (Nat × Nat × List Row) :=
  generateLoop params templateFile sch outputDir outcome 0 records

/-! Concrete datasets used to instantiate the theorems. -/

/-- A dataset with only the seven required columns. -/
def schemaRequired : Schema := ⟨false, false, false⟩

/-- A dataset that also has the `Nickname`, `Width` and `Height` columns. -/
def schemaAll : Schema := ⟨true, true, true⟩

/-- A well-formed row (as read from a dataset with required columns only). -/
def snakeRow : Row :=
  { commonName := Cell.str "Snake Plant", scientificName := Cell.str "Dracaena trifasciata",
    water := Cell.str "1", light := Cell.str "2", dry := Cell.str "TRUE",
    spike := Cell.str "FALSE", holes := Cell.str "NO",
    nickname := Cell.na, width := Cell.na, height := Cell.na }

/-- A second well-formed row. -/
def pothosRow : Row :=
  { snakeRow with
    commonName := Cell.str "Pothos",
    scientificName := Cell.str "Epipremnum aureum", water := Cell.str "2" }

/-- A row whose Water level is out of range. -/
def badWaterRow : Row :=
  { snakeRow with water := Cell.str "5" }

/-- Identity pair (`"A"`, `"S1"`), first copy. -/
def rowAS1 : Row :=
  { snakeRow with
    commonName := Cell.str "A", scientificName := Cell.str "S1" }

/-- Identity pair (`"A"`, `"S1"`), second copy (differs in the Light cell). -/
def rowAS1b : Row :=
  { rowAS1 with light := Cell.str "3" }

/-- Identity pair (`"A"`, `"S2"`): same common name, different scientific
name, first copy. -/
def rowAS2 : Row :=
  { snakeRow with
    commonName := Cell.str "A", scientificName := Cell.str "S2" }

/-- Identity pair (`"A"`, `"S2"`), second copy. -/
def rowAS2b : Row :=
  { rowAS2 with light := Cell.str "4" }

/-!
Theorems.  Small sanity checks first: the evaluation behaviour of the
embedded Python primitives on concrete values. -/

example : pyStrip "  a b " = "a b" := by decide
example : pyStrToInt " 42 " = some 42 := by decide
example : pyStrToInt "4.9" = none := by decide
example : pyStrToFloat "4.9" = some (mkRat 49 10) := by decide
example : pyTrunc (mkRat 49 10) = 4 := by decide
example : pyTrunc (mkRat (-15) 10) = -1 := by decide
example : pyFloatRepr 80 = "80.0" := by decide
example : pyFloatRepr (mkRat 49 10) = "4.9" := by decide
example : sanitize_filename "a_- _b" = "a___b" := by decide
example : extract_nickname "A 'x' B \"y\"" = ("A  B \"y\"", "x") := by decide

example : validate_csv_data schemaRequired [snakeRow, badWaterRow] =
    Except.error "Data validation failed:\nRow 2: Water level must be 1-4, got 5" := by
  decide

/-- On a dataset carrying all optional columns, the builder derives the
complete `openscad` argument list for a valid record (every `-D`
parameter, the dict entries in insertion order, then the template). -/
example : build_openscad_command defaultParams "t.scad" schemaAll snakeRow "o.stl" =
    Except.ok (["openscad", "-o", "o.stl",
      "-D", "plant_name=\"Snake Plant\"",
      "-D", "scientific_name=\"Dracaena trifasciata\"",
      "-D", "nickname=\"\"",
      "-D", "water_drops=1",
      "-D", "light_type=2",
      "-D", "show_dry_soil_symbol=true",
      "-D", "spike_enabled=false",
      "-D", "enable_hanging_holes=false",
      "-D", "label_width=80",
      "-D", "label_height=30",
      "-D", "label_thickness=3",
      "-D", "text_height=1.5",
      "-D", "text_size_multiplier=1.0",
      "-D", "symbol_size_multiplier=1.0",
      "-D", "show_plant_name=true",
      "-D", "show_scientific_name=true",
      "-D", "show_nickname=true",
      "-D", "show_water_symbols=true",
      "-D", "show_light_symbols=true",
      "-D", "show_frame=true",
      "-D", "corner_radius=3",
      "-D", "frame_width=1.5",
      "-D", "frame_height=0.8",
      "-D", "spike_length=40",
      "-D", "spike_width=6",
      "-D", "spike_taper=0.7",
      "-D", "spike_position=0",
      "-D", "spike_base_radius=1.5",
      "-D", "hole_diameter=3",
      "-D", "hole_margin_x=4",
      "-D", "hole_margin_y=4",
      "-D", "font_name=\"Liberation Sans\"",
      "t.scad"]) := by
  decide

/-- C7: the validation allow-list and the coercion fallback disagree on
the string `"2"`: `_is_valid_boolean` rejects it (a row-level error),
while `convert_boolean_to_openscad` coerces it to the literal `true`
through the nonzero-float fallback. -/
theorem C7_boolean_asymmetry_on_two :
    _is_valid_boolean (Cell.str "2") = false ∧
      convert_boolean_to_openscad (Cell.str "2") = "true" := by
  decide

/-- C10: a float-typed Water/Light cell (as produced by the tabular
reader for a numeric column) is truncated toward zero by `int(...)`
before the `[1,4]` range check, so a non-integer value whose truncation
lands in range is accepted, and the derived care level equals the
truncation. -/
theorem C10_numeric_truncation :
    ∀ (q : ℚ) (i : Nat) (field : String),
      intOfCell (Cell.num q) = some (pyTrunc q) ∧
      derive_care_level (Cell.num q) = Except.ok (pyTrunc q) ∧
      (1 ≤ pyTrunc q → pyTrunc q ≤ 4 → levelErrors i field (Cell.num q) = []) := by
  intro q i field
  refine ⟨rfl, rfl, ?_⟩
  intro h1 h2
  simp [levelErrors, intOfCell, h1, h2]

/-- Witness for C10 at the cell value `4.9`. -/
theorem C10_numeric_truncation_witness :
    1 ≤ pyTrunc (mkRat 49 10) ∧ pyTrunc (mkRat 49 10) ≤ 4 ∧
      levelErrors 0 "Water" (Cell.num (mkRat 49 10)) = [] ∧
      derive_care_level (Cell.num (mkRat 49 10)) = Except.ok 4 := by
  have h := C10_numeric_truncation (mkRat 49 10) 0 "Water"
  refine ⟨by decide, by decide, h.2.2 (by decide) (by decide), ?_⟩
  rw [h.2.1]
  decide

/-- C2 counterexample: with the command-line override `--label-width 100`
(modelled by updating `openscad_params`), a valid record whose Width cell
is empty derives `label_width = 100.0`, not `80.0` — the claimed
"exactly 80.0 regardless of any command-line overrides" is false. -/
theorem C2_counterexample :
    derive_label_dim (setParam defaultParams "label_width" (PVal.pnum 100))
        "Width" "label_width" true Cell.na = Except.ok (PVal.pnum 100) ∧
      PVal.pnum 100 ≠ PVal.pint 80 ∧ (100 : ℚ) ≠ 80 := by
  decide

/-- C2 amended: when the Width (Height) column is present and the cell is
empty, the derived `label_width` (`label_height`) equals the configured
`openscad_params` entry — `80` (`30`) under the defaults, but the
command-line override value when one was given; when the column is
absent the builder raises a `KeyError` instead (see C1). -/
theorem C2_dimension_defaults :
    (∀ (params : List (String × PVal)) (v : PVal),
      lookupParam params "label_width" = some v →
        derive_label_dim params "Width" "label_width" true Cell.na = Except.ok v) ∧
    (∀ (params : List (String × PVal)) (v : PVal),
      lookupParam params "label_height" = some v →
        derive_label_dim params "Height" "label_height" true Cell.na = Except.ok v) ∧
    derive_label_dim defaultParams "Width" "label_width" true Cell.na =
      Except.ok (PVal.pint 80) ∧
    derive_label_dim defaultParams "Height" "label_height" true Cell.na =
      Except.ok (PVal.pint 30) ∧
    (∀ (params : List (String × PVal)) (colName paramKey : String) (c : Cell),
      derive_label_dim params colName paramKey false c =
        Except.error (PyError.keyError colName)) := by
  refine ⟨?_, ?_, by decide, by decide, ?_⟩
  · intro params v h
    simp [derive_label_dim, h]
  · intro params v h
    simp [derive_label_dim, h]
  · intro params colName paramKey c
    simp [derive_label_dim]

/-- Witness for C2 at the default configuration. -/
theorem C2_dimension_defaults_witness :
    lookupParam defaultParams "label_width" = some (PVal.pint 80) ∧
      derive_label_dim defaultParams "Width" "label_width" true Cell.na =
        Except.ok (PVal.pint 80) :=
  ⟨by decide, C2_dimension_defaults.1 defaultParams (PVal.pint 80) (by decide)⟩

/-- C1: a dataset with only the seven required columns passes validation,
yet `build_openscad_command` raises `KeyError('Width')` on its row
(`plant_data['Width']` at line 267 indexes an absent column) instead of
returning the documented default-width parameter list; `render_stl`
swallows the exception and reports the record as failed. -/
theorem C1_build_raises_on_absent_width_column :
    validate_csv_data schemaRequired [snakeRow] = Except.ok ([snakeRow], []) ∧
      build_openscad_command defaultParams "enhanced_plant_labeler.scad" schemaRequired
        snakeRow "generated_labels/Snake_Plant.stl" =
        Except.error (PyError.keyError "Width") ∧
      render_stl defaultParams "enhanced_plant_labeler.scad" schemaRequired
        "generated_labels" snakeRow "Snake_Plant" RenderOutcome.success = false := by
  decide

/-- C6: a boolean-field cell is accepted by validation exactly when its
trimmed upper-cased form is one of the six literals, in which case the
conversion maps `TRUE/1/YES` to `true` and `FALSE/0/NO` to `false`; an
absent cell is accepted and converts to `false`; any other literal is
rejected. -/
theorem C6_boolean_normalization :
    (_is_valid_boolean Cell.na = true ∧ convert_boolean_to_openscad Cell.na = "false") ∧
    (∀ s : String,
      (pyUpper (pyStrip s) ∈ (["TRUE", "FALSE", "1", "0", "YES", "NO"] : List String) →
        _is_valid_boolean (Cell.str s) = true ∧
        convert_boolean_to_openscad (Cell.str s) =
          (if pyUpper (pyStrip s) ∈ (["TRUE", "1", "YES"] : List String)
            then "true" else "false")) ∧
      (pyUpper (pyStrip s) ∉ (["TRUE", "FALSE", "1", "0", "YES", "NO"] : List String) →
        _is_valid_boolean (Cell.str s) = false ∧
        ∀ (i : Nat) (field : String), boolErrors i field (Cell.str s) ≠ [])) := by
  refine ⟨by decide, ?_⟩
  intro s
  constructor
  · intro h
    constructor
    · simp [_is_valid_boolean, cellStr, h]
    · by_cases h1 : pyUpper (pyStrip s) ∈ (["TRUE", "1", "YES"] : List String)
      · simp [convert_boolean_to_openscad, cellStr, h1]
      · have h2 : pyUpper (pyStrip s) ∈ (["FALSE", "0", "NO"] : List String) := by
          simp only [List.mem_cons, List.mem_singleton, List.not_mem_nil, or_false] at h h1 ⊢
          tauto
        simp [convert_boolean_to_openscad, cellStr, h1, h2]
  · intro h
    have hb : _is_valid_boolean (Cell.str s) = false := by
      simp [_is_valid_boolean, cellStr, h]
    exact ⟨hb, fun i field => by simp [boolErrors, hb]⟩

/-- Witness for C6 at the cell value `" yes "`. -/
theorem C6_boolean_normalization_witness :
    _is_valid_boolean (Cell.str " yes ") = true ∧
      convert_boolean_to_openscad (Cell.str " yes ") = "true" := by
  have h := (C6_boolean_normalization.2 " yes ").1 (by decide)
  have h2 : (if pyUpper (pyStrip " yes ") ∈ (["TRUE", "1", "YES"] : List String)
      then "true" else "false") = "true" := by decide
  exact ⟨h.1, h2 ▸ h.2⟩

theorem searchQuoted_of_not_mem (q : Char) {l : List Char} (h : q ∉ l) :
    searchQuoted q l = none := by
  induction l with
  | nil => rfl
  | cons c rest ih =>
    have hc : ¬ c = q := by
      rintro rfl
      exact h (List.mem_cons_self c rest)
    simp only [searchQuoted, if_neg hc]
    exact ih (fun hm => h (List.mem_cons_of_mem c hm))

theorem takeWhile_append_stop (p : Char → Bool) (q : Char) (mid post : List Char)
    (hmid : ∀ c ∈ mid, p c = true) (hq : p q = false) :
    (mid ++ q :: post).takeWhile p = mid := by
  induction mid with
  | nil => simp [List.takeWhile_cons, hq]
  | cons c cs ih =>
    simp [List.takeWhile_cons, hmid c (List.mem_cons_self c cs),
      ih (fun d hd => hmid d (List.mem_cons_of_mem c hd))]

theorem searchQuoted_append (q : Char) {pre mid : List Char} (post : List Char)
    (hpre : q ∉ pre) (hmid : q ∉ mid) :
    searchQuoted q (pre ++ q :: (mid ++ q :: post)) = some mid := by
  induction pre with
  | nil =>
    have hmem : q ∈ mid ++ q :: post := List.mem_append_right mid (List.mem_cons_self q post)
    simp only [List.nil_append, searchQuoted, if_pos rfl, hmem, if_true]
    refine congrArg some (takeWhile_append_stop _ q mid post ?_ ?_)
    · intro c hcmem
      have hc : c ≠ q := fun h => hmid (h ▸ hcmem)
      simp [hc]
    · simp
  | cons c cs ih =>
    have hc : ¬ c = q := by
      rintro rfl
      exact hpre (List.mem_cons_self c cs)
    simp only [List.cons_append, searchQuoted, if_neg hc]
    exact ih (fun hm => hpre (List.mem_cons_of_mem c hm))

/-- C5: nickname extraction scans for a single-quoted substring first,
then a double-quoted one; the first quoted text (without its quotes)
becomes the nickname while every substring of that quote style is
removed from the common name and the result is stripped; a name without
quotes is returned unchanged with an empty nickname.  The spec's three
examples are included, together with a find-first/remove-all example. -/
theorem C5_nickname_extraction :
    extract_nickname "Maranta 'Lemon Lime'" = ("Maranta", "Lemon Lime") ∧
    extract_nickname "Pothos \"Marble Queen\"" = ("Pothos", "Marble Queen") ∧
    extract_nickname "Snake Plant" = ("Snake Plant", "") ∧
    extract_nickname "A 'x' B 'y'" = ("A  B", "x") ∧
    (∀ s : String, squote ∉ s.toList → dquote ∉ s.toList →
      extract_nickname s = (s, "")) ∧
    (∀ pre mid post : List Char, squote ∉ pre → squote ∉ mid →
      extract_nickname (String.mk (pre ++ squote :: (mid ++ squote :: post))) =
        (pyStrip (String.mk (removeQuoted squote (pre ++ squote :: (mid ++ squote :: post)))),
          String.mk mid)) ∧
    (∀ pre mid post : List Char,
      squote ∉ pre ++ dquote :: (mid ++ dquote :: post) →
      dquote ∉ pre → dquote ∉ mid →
      extract_nickname (String.mk (pre ++ dquote :: (mid ++ dquote :: post))) =
        (pyStrip (String.mk (removeQuoted dquote (pre ++ dquote :: (mid ++ dquote :: post)))),
          String.mk mid)) := by
  refine ⟨by decide, by decide, by decide, by decide, ?_, ?_, ?_⟩
  · intro s h1 h2
    have e1 : searchQuoted squote s.data = none := searchQuoted_of_not_mem squote h1
    have e2 : searchQuoted dquote s.data = none := searchQuoted_of_not_mem dquote h2
    simp [extract_nickname, String.toList, e1, e2]
  · intro pre mid post h1 h2
    have e : searchQuoted squote (pre ++ squote :: (mid ++ squote :: post)) = some mid :=
      searchQuoted_append squote post h1 h2
    simp [extract_nickname, String.toList, e]
  · intro pre mid post h0 h1 h2
    have e0 : searchQuoted squote (pre ++ dquote :: (mid ++ dquote :: post)) = none :=
      searchQuoted_of_not_mem squote h0
    have e : searchQuoted dquote (pre ++ dquote :: (mid ++ dquote :: post)) = some mid :=
      searchQuoted_append dquote post h1 h2
    simp [extract_nickname, String.toList, e0, e]

/-- Witness for C5: a quote-free name is unchanged, and a name built
around one single-quoted segment yields that segment as the nickname. -/
theorem C5_nickname_extraction_witness :
    extract_nickname "Rose" = ("Rose", "") ∧
      extract_nickname (String.mk (['M'] ++ squote :: (['x'] ++ squote :: []))) =
        (pyStrip (String.mk (removeQuoted squote (['M'] ++ squote :: (['x'] ++ squote :: [])))),
          String.mk ['x']) :=
  ⟨C5_nickname_extraction.2.2.2.2.1 "Rose" (by decide) (by decide),
    C5_nickname_extraction.2.2.2.2.2.1 ['M'] ['x'] [] (by decide) (by decide)⟩

theorem foldr_collapseSpecStep_fst (c : Char) (l : List Char) :
    ((c :: l).foldr collapseSpecStep (false, [])).1 = isRunChar c := by
  by_cases h : isRunChar c <;> simp [collapseSpecStep, h]

theorem collapseRuns_eq_collapseSpec : ∀ l : List Char, collapseRuns l = collapseSpec l := by
  intro l
  induction l with
  | nil => rfl
  | cons c rest ih =>
    cases rest with
    | nil =>
      by_cases h : isRunChar c <;>
        simp [collapseRuns, collapseSpec, collapseSpecStep, h]
    | cons d rest2 =>
      have hfst := foldr_collapseSpecStep_fst d rest2
      by_cases hc : isRunChar c <;> by_cases hd : isRunChar d <;>
        simp only [collapseRuns, collapseSpec, List.foldr_cons, collapseSpecStep,
          hc, hd, hfst, if_true, if_false, ite_true, ite_false] at ih ⊢ <;>
        simp [ih, hfst]

/-- C9: the output filename slug is exactly the claimed transformation —
strip every character that is not a word character, whitespace or
hyphen; collapse every hyphen/whitespace run to one underscore; trim
leading and trailing underscores — and `Maranta 'Lemon Lime'` maps to
`Maranta_Lemon_Lime`. -/
theorem C9_filename_slug :
    (∀ name : String, sanitize_filename name = slugSpec name) ∧
      sanitize_filename "Maranta 'Lemon Lime'" = "Maranta_Lemon_Lime" := by
  refine ⟨?_, by decide⟩
  intro name
  simp [sanitize_filename, slugSpec, collapseRuns_eq_collapseSpec]

theorem generateLoop_attempts_all (params : List (String × PVal)) (templ : String)
    (sch : Schema) (outDir : String) (outcome : Nat → RenderOutcome) :
    ∀ (records : List Row) (i : Nat),
      (∀ r ∈ records, ∃ s, r.commonName = Cell.str s) →
      ∃ succ fail, generateLoop params templ sch outDir outcome i records =
          Except.ok (succ, fail, records) ∧ succ + fail = records.length := by
  intro records
  induction records with
  | nil => exact fun i _ => ⟨0, 0, rfl, rfl⟩
  | cons r rest ih =>
    intro i h
    obtain ⟨s, hs⟩ := h r (List.mem_cons_self r rest)
    obtain ⟨succ, fail, heq, hsum⟩ := ih (i + 1) (fun t ht => h t (List.mem_cons_of_mem r ht))
    by_cases hok : render_stl params templ sch outDir r (sanitize_filename s) (outcome i) = true
    · refine ⟨succ + 1, fail, ?_, by simp only [List.length_cons]; omega⟩
      simp [generateLoop, hs, heq, hok]
    · refine ⟨succ, fail + 1, ?_, by simp only [List.length_cons]; omega⟩
      simp only [Bool.not_eq_true] at hok
      simp [generateLoop, hs, heq, hok]

/-- C8: render failures are isolated — whatever the per-record renderer
outcomes (non-zero exit, timeout, missing renderer), every valid record
with a textual Common Name is attempted in order, and the success and
failure counts sum to the number of records processed. -/
theorem C8_render_isolation (params : List (String × PVal)) (templ : String)
    (sch : Schema) (outDir : String) (outcome : Nat → RenderOutcome)
    (records : List Row)
    (h : ∀ r ∈ records, ∃ s, r.commonName = Cell.str s) :
    ∃ succ fail, generate_all_labels params templ sch outDir records outcome =
        Except.ok (succ, fail, records) ∧ succ + fail = records.length :=
  generateLoop_attempts_all params templ sch outDir outcome records 0 h

/-- Witness for C8: two records, the first rendering fails with a
non-zero exit, the second succeeds; both are attempted and 1 + 1 = 2. -/
theorem C8_render_isolation_witness :
    ∃ succ fail,
      generate_all_labels defaultParams "enhanced_plant_labeler.scad" schemaRequired
          "generated_labels" [snakeRow, pothosRow]
          (fun n => if n = 0 then RenderOutcome.nonzeroExit else RenderOutcome.success) =
        Except.ok (succ, fail, [snakeRow, pothosRow]) ∧
      succ + fail = ([snakeRow, pothosRow] : List Row).length :=
  C8_render_isolation defaultParams "enhanced_plant_labeler.scad" schemaRequired
    "generated_labels" (fun n => if n = 0 then RenderOutcome.nonzeroExit else RenderOutcome.success)
    [snakeRow, pothosRow]
    (by
      intro r hr
      simp only [List.mem_cons, List.not_mem_nil, or_false] at hr
      rcases hr with rfl | rfl
      · exact ⟨"Snake Plant", rfl⟩
      · exact ⟨"Pothos", rfl⟩)

theorem levelErrors_ne_nil_of_outside {c : Cell} (h : cellOutside14 c)
    (i : Nat) (field : String) : levelErrors i field c ≠ [] := by
  unfold cellOutside14 at h
  cases he : intOfCell c with
  | none => simp [levelErrors, he]
  | some v =>
    rw [he] at h
    have hrange : ¬ (1 ≤ v ∧ v ≤ 4) := by omega
    simp [levelErrors, he, hrange]

theorem rowErrors_ne_nil_of_water {sch : Schema} {i : Nat} {r : Row}
    (h : levelErrors i "Water" r.water ≠ []) : rowErrors sch i r ≠ [] := by
  intro heq
  simp only [rowErrors, List.append_eq_nil] at heq
  tauto

theorem rowErrors_ne_nil_of_light {sch : Schema} {i : Nat} {r : Row}
    (h : levelErrors i "Light" r.light ≠ []) : rowErrors sch i r ≠ [] := by
  intro heq
  simp only [rowErrors, List.append_eq_nil] at heq
  tauto

theorem mem_rowsErrors_of_get? (sch : Schema) :
    ∀ (rows : List Row) (i j : Nat) (r : Row), rows.get? j = some r →
      ∀ e ∈ rowErrors sch (i + j) r, e ∈ rowsErrors sch i rows := by
  intro rows
  induction rows with
  | nil => intro i j r hget; cases hget
  | cons a rest ih =>
    intro i j r hget e he
    rw [rowsErrors]
    cases j with
    | zero =>
      rw [List.get?_cons_zero, Option.some_inj] at hget
      subst hget
      exact List.mem_append_left _ he
    | succ j' =>
      rw [List.get?_cons_succ] at hget
      refine List.mem_append_right _ (ih (i + 1) j' r hget e ?_)
      have : i + 1 + j' = i + (j' + 1) := by omega
      rw [this]
      exact he

theorem rowsErrors_ne_nil_of_mem (sch : Schema) {r : Row}
    (hr : ∀ j, rowErrors sch j r ≠ []) :
    ∀ rows : List Row, r ∈ rows → ∀ i, rowsErrors sch i rows ≠ [] := by
  intro rows
  induction rows with
  | nil => intro hmem; cases hmem
  | cons a rest ih =>
    intro hmem i heq
    have hsplit := List.append_eq_nil.mp (by rw [rowsErrors] at heq; exact heq)
    rcases List.mem_cons.mp hmem with rfl | hmem'
    · exact hr i hsplit.1
    · exact ih hmem' (i + 1) hsplit.2

/-- C3: a dataset with any row-level violation — in particular a Water or
Light cell that is non-numeric or outside `[1,4]` — makes validation
raise `DataValidationError` whose message joins every row-level error
message of every malformed row (`rowsErrors` is, by construction, the
in-order concatenation of each row's error list), and no records are
returned: nothing is clamped and no partial dataset is processed. -/
theorem C3_all_or_nothing_validation (sch : Schema) (rows : List Row) (r : Row)
    (hmem : r ∈ rows)
    (hbad : cellOutside14 r.water ∨ cellOutside14 r.light ∨ (∀ j, rowErrors sch j r ≠ [])) :
    validate_csv_data sch rows =
      Except.error ("Data validation failed:\n" ++
        String.intercalate "\n" (rowsErrors sch 0 rows)) ∧
    rowsErrors sch 0 rows ≠ [] ∧
    (∀ (j : Nat) (t : Row), rows.get? j = some t →
      ∀ e ∈ rowErrors sch j t, e ∈ rowsErrors sch 0 rows) ∧
    ∀ recs warns, validate_csv_data sch rows ≠ Except.ok (recs, warns) := by
  have hr : ∀ j, rowErrors sch j r ≠ [] := by
    rcases hbad with hw | hl | h
    · exact fun j => rowErrors_ne_nil_of_water (levelErrors_ne_nil_of_outside hw j "Water")
    · exact fun j => rowErrors_ne_nil_of_light (levelErrors_ne_nil_of_outside hl j "Light")
    · exact h
  have hne : rowsErrors sch 0 rows ≠ [] := rowsErrors_ne_nil_of_mem sch hr rows hmem 0
  have hval : validate_csv_data sch rows =
      Except.error ("Data validation failed:\n" ++
        String.intercalate "\n" (rowsErrors sch 0 rows)) := by
    simp only [validate_csv_data]
    rw [if_pos hne]
  refine ⟨hval, hne, ?_, ?_⟩
  · intro j t hget e he
    refine mem_rowsErrors_of_get? sch rows 0 j t hget e ?_
    have : 0 + j = j := by omega
    rw [this]
    exact he
  · intro recs warns hok
    rw [hval] at hok
    exact Except.noConfusion hok

/-- Witness for C3: a two-row dataset whose second row has Water level 5
is rejected as a whole, with the full message. -/
theorem C3_all_or_nothing_validation_witness :
    validate_csv_data schemaRequired [snakeRow, badWaterRow] =
      Except.error "Data validation failed:\nRow 2: Water level must be 1-4, got 5" := by
  have h := C3_all_or_nothing_validation schemaRequired [snakeRow, badWaterRow] badWaterRow
    (by decide) (Or.inl (by decide))
  rw [h.1]
  decide

theorem validRows_eq_of_no_errors (sch : Schema) :
    ∀ (rows : List Row) (i : Nat), rowsErrors sch i rows = [] →
      validRows sch i rows = rows := by
  intro rows
  induction rows with
  | nil => intro i _; rfl
  | cons r rest ih =>
    intro i h
    have hsplit := List.append_eq_nil.mp (by rw [rowsErrors] at h; exact h)
    rw [validRows, if_pos hsplit.1, ih (i + 1) hsplit.2]

theorem dedupFirstBy_sublist :
    ∀ (l : List Row) (seen : List (Cell × Cell)), List.Sublist (dedupFirstBy keyOf l seen) l := by
  intro l
  induction l with
  | nil => intro seen; exact List.Sublist.refl []
  | cons r rest ih =>
    intro seen
    rw [dedupFirstBy]
    by_cases h : keyOf r ∈ seen
    · rw [if_pos h]; exact (ih seen).cons r
    · rw [if_neg h]; exact (ih (keyOf r :: seen)).cons₂ r

theorem card_insert_eq_card_erase_add_one (a : Cell × Cell) (s : Finset (Cell × Cell)) :
    (insert a s).card = (s.erase a).card + 1 := by
  by_cases h : a ∈ s
  · rw [Finset.insert_eq_self.mpr h, Finset.card_erase_add_one h]
  · rw [Finset.erase_eq_of_not_mem h, Finset.card_insert_of_not_mem h]

theorem length_dedupFirstBy :
    ∀ (l : List Row) (seen : List (Cell × Cell)),
      (dedupFirstBy keyOf l seen).length =
        ((l.map keyOf).toFinset \ seen.toFinset).card := by
  intro l
  induction l with
  | nil => intro seen; simp [dedupFirstBy]
  | cons r rest ih =>
    intro seen
    rw [dedupFirstBy]
    by_cases h : keyOf r ∈ seen
    · rw [if_pos h, ih seen]
      simp only [List.map_cons, List.toFinset_cons]
      rw [Finset.insert_sdiff_of_mem _ (List.mem_toFinset.mpr h)]
    · rw [if_neg h, List.length_cons, ih (keyOf r :: seen)]
      simp only [List.map_cons, List.toFinset_cons]
      rw [Finset.insert_sdiff_of_not_mem _ (by simpa using h), Finset.sdiff_insert,
        card_insert_eq_card_erase_add_one]

theorem find?_dedupFirstBy :
    ∀ (l : List Row) (seen : List (Cell × Cell)) (x : Row),
      x ∈ dedupFirstBy keyOf l seen →
        keyOf x ∉ seen ∧ l.find? (fun t => decide (keyOf t = keyOf x)) = some x := by
  intro l
  induction l with
  | nil => intro seen x hx; rw [dedupFirstBy] at hx; cases hx
  | cons r rest ih =>
    intro seen x hx
    rw [dedupFirstBy] at hx
    by_cases h : keyOf r ∈ seen
    · rw [if_pos h] at hx
      obtain ⟨hns, hfind⟩ := ih seen x hx
      have hne : ¬ keyOf r = keyOf x := fun he => hns (he ▸ h)
      exact ⟨hns, by rw [List.find?_cons_of_neg _ (by simpa using hne)]; exact hfind⟩
    · rw [if_neg h] at hx
      rcases List.mem_cons.mp hx with rfl | hx'
      · exact ⟨h, by rw [List.find?_cons_of_pos _ (by simp)]⟩
      · obtain ⟨hns, hfind⟩ := ih (keyOf r :: seen) x hx'
        simp only [List.mem_cons, not_or] at hns
        have hne : ¬ keyOf r = keyOf x := fun he => hns.1 he.symm
        exact ⟨hns.2, by rw [List.find?_cons_of_neg _ (by simpa using hne)]; exact hfind⟩

theorem nodup_keys_of_countP_le_one :
    ∀ rows : List Row,
      (∀ t ∈ rows, (rows.map keyOf).countP (fun k => k = keyOf t) ≤ 1) →
      (rows.map keyOf).Nodup := by
  intro rows
  induction rows with
  | nil => intro _; simp
  | cons r rest ih =>
    intro h
    simp only [List.map_cons, List.nodup_cons]
    constructor
    · intro hmem
      have h1 := h r (List.mem_cons_self r rest)
      have hpos : 0 < (rest.map keyOf).countP (fun k => decide (k = keyOf r)) := by
        rw [List.countP_pos_iff]
        exact ⟨keyOf r, hmem, by simp⟩
      rw [List.map_cons, List.countP_cons, if_pos (by simp)] at h1
      omega
    · apply ih
      intro t ht
      have h1 := h t (List.mem_cons_of_mem r ht)
      rw [List.map_cons, List.countP_cons] at h1
      by_cases hc : keyOf r = keyOf t
      · simp only [hc, decide_eq_true_eq, if_pos rfl] at h1
        omega
      · simp only [decide_eq_true_eq, if_neg hc] at h1
        omega

theorem dupRowsOf_ne_nil_of_card_lt {rows : List Row}
    (h : (rows.map keyOf).toFinset.card < rows.length) : dupRowsOf rows ≠ [] := by
  intro hnil
  have hall := List.filter_eq_nil_iff.mp hnil
  have hcount : ∀ t ∈ rows, (rows.map keyOf).countP (fun k => k = keyOf t) ≤ 1 := by
    intro t ht
    have h2 := hall t ht
    simp only [decide_eq_true_eq] at h2
    omega
  have hnodup := nodup_keys_of_countP_le_one rows hcount
  rw [List.toFinset_card_of_nodup hnodup, List.length_map] at h
  exact lt_irrefl _ h

/-- C4 counterexample: four valid rows with identity pairs
(A,S1), (A,S1), (A,S2), (A,S2).  Dedup keeps the two first occurrences
(so 4 − 2 = 2 rows are removed), but the recorded warning says
`Removed 3 duplicate rows`: `duplicates.sum() − len(set(duplicate_plants))`
counts distinct common names, not distinct identity pairs, so the claim
that the warning carries "the count removed" is false. -/
theorem C4_counterexample :
    validate_csv_data schemaRequired [rowAS1, rowAS1b, rowAS2, rowAS2b] =
      Except.ok ([rowAS1, rowAS2],
        [Warning.dupFound {Cell.str "A"}, Warning.dupRemoved 3]) ∧
    ([rowAS1, rowAS1b, rowAS2, rowAS2b] : List Row).length -
      ([rowAS1, rowAS2] : List Row).length = 2 ∧
    Warning.dupRemoved 2 ∉
      ([Warning.dupFound {Cell.str "A"}, Warning.dupRemoved 3] : List Warning) ∧
    (3 : Int) ≠ 2 := by
  decide

/-- C4 amended: for N validated rows with M distinct identity pairs,
M < N, validation succeeds with exactly the M first occurrences, in
input order (each surviving record is the first row carrying its
identity pair), and records the two duplicate warnings: one naming the
set of duplicated Common Name cells, and one whose count is
`duplicates.sum() − len(set(duplicate_plants))` — equal to the number
of rows removed whenever distinct duplicated identity pairs have
distinct common names, but not in general (see the counterexample). -/
theorem C4_dedup_first_occurrence (sch : Schema) (rows : List Row)
    (hok : rowsErrors sch 0 rows = [])
    (hM : (rows.map keyOf).toFinset.card < rows.length) :
    validate_csv_data sch rows = Except.ok
      (dedupFirstBy keyOf rows [],
        rowsWarnings sch 0 rows ++
          [Warning.dupFound (dupNamesOf rows), Warning.dupRemoved (dupCountOf rows)]) ∧
    (dedupFirstBy keyOf rows []).length = (rows.map keyOf).toFinset.card ∧
    List.Sublist (dedupFirstBy keyOf rows []) rows ∧
    (∀ x ∈ dedupFirstBy keyOf rows [],
      rows.find? (fun t => decide (keyOf t = keyOf x)) = some x) := by
  have hval : validRows sch 0 rows = rows := validRows_eq_of_no_errors sch rows 0 hok
  have hrows_ne : rows ≠ [] := by
    rintro rfl
    simp at hM
  have hdup_ne : dupRowsOf rows ≠ [] := dupRowsOf_ne_nil_of_card_lt hM
  refine ⟨?_, ?_, dedupFirstBy_sublist rows [], ?_⟩
  · simp only [validate_csv_data]
    rw [if_neg (not_not_intro hok), hval, if_pos hrows_ne, if_pos hdup_ne]
  · rw [length_dedupFirstBy rows []]
    simp
  · intro x hx
    exact (find?_dedupFirstBy rows [] x hx).2

/-- Witness for C4 at a two-row dataset with one duplicated identity. -/
theorem C4_dedup_first_occurrence_witness :
    validate_csv_data schemaRequired [rowAS1, rowAS1b] = Except.ok
      (dedupFirstBy keyOf [rowAS1, rowAS1b] [],
        rowsWarnings schemaRequired 0 [rowAS1, rowAS1b] ++
          [Warning.dupFound (dupNamesOf [rowAS1, rowAS1b]),
            Warning.dupRemoved (dupCountOf [rowAS1, rowAS1b])]) ∧
    (dedupFirstBy keyOf [rowAS1, rowAS1b] []).length =
      (([rowAS1, rowAS1b] : List Row).map keyOf).toFinset.card := by
  have h := C4_dedup_first_occurrence schemaRequired [rowAS1, rowAS1b]
    (by decide) (by decide)
  exact ⟨h.1, h.2.1⟩

end PlantLabel
